import Mathlib

/-!
Verification of the `fallible` error-propagation toolkit (src/src/fallible.ts).

The embedding models JavaScript runtime values as a small universe `JSVal`
(numbers, strings, booleans, `undefined`, and objects tagged with their
prototype-chain class names and carrying a payload, enough to model
`new FallibleError(value)` and `instanceof` checks).  A synchronous JS
computation that either returns a value or throws one is embedded as
`Except JSVal α`; a suspension-aware (async) computation is embedded as
`AsyncOutcome α`, which distinguishes a value, a synchronous throw during
the call, and a rejection produced after a suspension point.  Generic TS
type parameters are erased at the JS runtime, so the boundary functions are
embedded at the dynamic type `JSVal`; the pure combinators (`mapError`,
`tapError`) keep their full polymorphism.
-/

namespace Fallible

/-- The universe of JavaScript runtime values used by the embedding.
`object classes payload` stands for an object whose prototype chain carries
the listed class names and whose `value` property is `payload`. -/
inductive JSVal : Type where
  | int (n : Int)
  | str (s : String)
  | boolean (b : Bool)
  | undefinedVal
  | object (classes : List String) (payload : JSVal)
deriving DecidableEq, Repr

/-- JavaScript `value instanceof type`: true exactly when `type` occurs in
the prototype-chain class list of an object; false on every non-object. -/
def instanceOf (value : JSVal) (type : String) : Bool :=
  match value with
  | .object classes _ => classes.contains type
  | _ => false

/-- Reading the `value` property of a JS value; only ever applied to
`FallibleError` instances (which are objects) in this development. -/
def jsValue : JSVal → JSVal
  | .object _ payload => payload
  | _ => .undefinedVal

/-- The class name of the (unexported) sentinel class `FallibleError`. -/
def fallibleErrorClass : String := "FallibleError"

/-- `new FallibleError(value)` from src/src/fallible.ts lines 1-5: an object
of class `FallibleError` wrapping `value`. -/
def mkFallibleError (value : JSVal) : JSVal :=
  .object [fallibleErrorClass] value

/-- The `Result<TOk, TError>` tagged union: `Ok` or `Error`
(src/src/fallible.ts lines 8-10, with the `ok`/`error` constructors of
lines 66-78). -/
inductive Result (α β : Type) : Type where
  | ok (value : α)
  | error (value : β)
deriving DecidableEq, Repr

/-- The outcome of a synchronous JS computation: it returns a value
(`Except.ok`) or throws one (`Except.error`). -/
abbrev JSComp (α : Type) : Type := Except JSVal α

/-- `propagate` (src/src/fallible.ts lines 13-18): on an `Error` result it
throws `new FallibleError(result.value)`, otherwise it returns the `Ok`
value and the computation continues. -/
def propagate (result : Result JSVal JSVal) : JSComp JSVal :=
  match result with
  | .error v => Except.error (mkFallibleError v)
  | .ok v => Except.ok v

/-- `fallible` (src/src/fallible.ts lines 27-41): runs `func propagate`;
a thrown `FallibleError` is converted back into `error(exception.value)`,
every other thrown value is rethrown, and a returned `Result` is passed
through verbatim. -/
def fallible
    (func : (Result JSVal JSVal → JSComp JSVal) → JSComp (Result JSVal JSVal)) :
    JSComp (Result JSVal JSVal) :=
  match func propagate with
  | Except.ok r => Except.ok r
  | Except.error exception =>
    if instanceOf exception fallibleErrorClass then
      Except.ok (Result.error (jsValue exception))
    else
      Except.error exception

/-- The outcome of a suspension-aware (async) JS computation: it resolves
to a value, throws synchronously during the call, or rejects after a
suspension point. -/
inductive AsyncOutcome (α : Type) : Type where
  | resolve (v : α)
  | rejectSync (e : JSVal)
  | rejectAsync (e : JSVal)

/-- `await`: both a synchronous throw and a later rejection surface as the
exception channel firing; a resolution surfaces as the value. -/
def settle : AsyncOutcome α → JSComp α
  | .resolve v => Except.ok v
  | .rejectSync e => Except.error e
  | .rejectAsync e => Except.error e

/-- Sequencing a synchronous step into an async body whose possible throw
happens before any suspension point (so the body rejects synchronously). -/
def AsyncOutcome.bindSync : JSComp α → (α → AsyncOutcome β) → AsyncOutcome β
  | Except.error e, _ => .rejectSync e
  | Except.ok v, k => k v

/-- Sequencing a synchronous step into an async body whose possible throw
happens after a suspension point (so the body rejects asynchronously). -/
def AsyncOutcome.bindAsync : JSComp α → (α → AsyncOutcome β) → AsyncOutcome β
  | Except.error e, _ => .rejectAsync e
  | Except.ok v, k => k v

/-- `asyncFallible` (src/src/fallible.ts lines 49-63): like `fallible` but
the body may suspend; `await func(propagate)` merges synchronous throws and
rejections into one exception channel, handled exactly as in `fallible`.
The value is the settled outcome of the returned promise. -/
def asyncFallible
    (func : (Result JSVal JSVal → JSComp JSVal) → AsyncOutcome (Result JSVal JSVal)) :
    JSComp (Result JSVal JSVal) :=
  match settle (func propagate) with
  | Except.ok r => Except.ok r
  | Except.error exception =>
    if instanceOf exception fallibleErrorClass then
      Except.ok (Result.error (jsValue exception))
    else
      Except.error exception

/-- `mapError` (src/src/fallible.ts lines 84-90): maps the error channel if
present, leaves `Ok` untouched.  Pure, kept fully polymorphic. -/
def mapError (func : β → γ) : Result α β → Result α γ :=
  fun result =>
    match result with
    | .ok v => Result.ok v
    | .error v => Result.error (func v)

/-- The effectful reading of the same `mapError` source lines, for mapping
functions with a side effect: effects are embedded as explicit state
passing (`σ → γ × σ`).  On `Ok` the function is not invoked and the state
is unchanged; on `Error` it is invoked once on the payload. -/
def mapErrorEff (func : β → σ → γ × σ) : Result α β → σ → Result α γ × σ :=
  fun result s =>
    match result with
    | .ok v => (Result.ok v, s)
    | .error v =>
      let p := func v s
      (Result.error p.1, p.2)

/-- `tapError` (src/src/fallible.ts lines 97-104): defined through
`mapError` with the mapping function that runs the side effect and returns
the error unchanged.  The void-returning effect function is embedded as a
state transformer `β → σ → σ`. -/
def tapError (func : β → σ → σ) : Result α β → σ → Result α β × σ :=
  mapErrorEff (fun e s => (e, func e s))

/-- `guardOrThrow` (src/src/fallible.ts lines 107-115): rethrows the
exception if the guard rejects it, otherwise returns it in an `Error`. -/
def guardOrThrow (exception : JSVal) (guard : JSVal → Bool) :
    JSComp (Result α JSVal) :=
  if !guard exception then
    Except.error exception
  else
    Except.ok (Result.error exception)

/-- `catchAnyException` (src/src/fallible.ts lines 122-131): calls `func`
and returns its value in an `Ok`; any thrown value is returned in an
`Error`. -/
def catchAnyException (func : Unit → JSComp α) : JSComp (Result α JSVal) :=
  match func () with
  | Except.ok v => Except.ok (Result.ok v)
  | Except.error exception => Except.ok (Result.error exception)

/-- `catchGuardedException` (src/src/fallible.ts lines 138-147): calls
`func`; a thrown value matching the guard is returned in an `Error`,
otherwise it is rethrown via `guardOrThrow`. -/
def catchGuardedException (func : Unit → JSComp α)
    (exceptionGuard : JSVal → Bool) : JSComp (Result α JSVal) :=
  match func () with
  | Except.ok v => Except.ok (Result.ok v)
  | Except.error exception => guardOrThrow exception exceptionGuard

/-- `instanceOfGuard` (src/src/fallible.ts lines 150-152): the predicate
`value instanceof type` derived from a class. -/
def instanceOfGuard (type : String) : JSVal → Bool :=
  fun value => instanceOf value type

/-- `catchExceptionByType` (src/src/fallible.ts lines 160-170): catch
guarded by `instanceOfGuard exceptionType`. -/
def catchExceptionByType (func : Unit → JSComp α) (exceptionType : String) :
    JSComp (Result α JSVal) :=
  catchGuardedException func (instanceOfGuard exceptionType)

/-- `asyncCatchAnyException` (src/src/fallible.ts lines 174-183): the
suspension-aware `catchAnyException`; `await func()` merges synchronous
throws and rejections.  The value is the settled outcome of the returned
promise. -/
def asyncCatchAnyException (func : Unit → AsyncOutcome α) :
    JSComp (Result α JSVal) :=
  match settle (func ()) with
  | Except.ok v => Except.ok (Result.ok v)
  | Except.error exception => Except.ok (Result.error exception)

/-- `asyncCatchGuardedException` (src/src/fallible.ts lines 187-197): the
suspension-aware `catchGuardedException`. -/
def asyncCatchGuardedException (func : Unit → AsyncOutcome α)
    (exceptionGuard : JSVal → Bool) : JSComp (Result α JSVal) :=
  match settle (func ()) with
  | Except.ok v => Except.ok (Result.ok v)
  | Except.error exception => guardOrThrow exception exceptionGuard

/-- `asyncCatchExceptionByType` (src/src/fallible.ts lines 201-210):
suspension-aware catch guarded by `instanceOfGuard exceptionType`. -/
def asyncCatchExceptionByType (func : Unit → AsyncOutcome α)
    (exceptionType : String) : JSComp (Result α JSVal) :=
  asyncCatchGuardedException func (instanceOfGuard exceptionType)

/-- `wrapAnyException` (src/src/fallible.ts lines 217-221): wraps `func`
so that calling the wrapper runs `func` on the arguments under
`catchAnyException`.  The argument tuple is embedded as one value of an
arbitrary type `σ`. -/
def wrapAnyException (func : σ → JSComp α) : σ → JSComp (Result α JSVal) :=
  fun args => catchAnyException (fun _ => func args)

/-- `wrapGuardedException` (src/src/fallible.ts lines 230-235). -/
def wrapGuardedException (func : σ → JSComp α)
    (exceptionGuard : JSVal → Bool) : σ → JSComp (Result α JSVal) :=
  fun args => catchGuardedException (fun _ => func args) exceptionGuard

/-- `wrapExceptionByType` (src/src/fallible.ts lines 244-249). -/
def wrapExceptionByType (func : σ → JSComp α) (exceptionType : String) :
    σ → JSComp (Result α JSVal) :=
  fun args => catchExceptionByType (fun _ => func args) exceptionType

/-- `asyncWrapAnyException` (src/src/fallible.ts lines 253-257). -/
def asyncWrapAnyException (func : σ → AsyncOutcome α) :
    σ → JSComp (Result α JSVal) :=
  fun args => asyncCatchAnyException (fun _ => func args)

/-- `asyncWrapGuardedException` (src/src/fallible.ts lines 261-266). -/
def asyncWrapGuardedException (func : σ → AsyncOutcome α)
    (exceptionGuard : JSVal → Bool) : σ → JSComp (Result α JSVal) :=
  fun args => asyncCatchGuardedException (fun _ => func args) exceptionGuard

/-- `asyncWrapExceptionByType` (src/src/fallible.ts lines 270-275). -/
def asyncWrapExceptionByType (func : σ → AsyncOutcome α)
    (exceptionType : String) : σ → JSComp (Result α JSVal) :=
  fun args => asyncCatchExceptionByType (fun _ => func args) exceptionType

/-- A boundary outcome contains no escaping sentinel: either it returned a
`Result`, or the thrown value it re-raised is not a `FallibleError`. -/
def escapesNoSentinel : JSComp α → Bool
  | Except.ok _ => true
  | Except.error e => !instanceOf e fallibleErrorClass

/-- Claim C1: `propagate (ok v)` returns `v` and the body continues
(a `fallible` body that calls `propagate (ok v)` and goes on with `rest`
behaves as the body `rest v`); `propagate (error e)` makes the enclosing
boundary resolve to `error e` without any subsequent statement of the body
running, even one that would itself throw (`rest` is arbitrary); the same
holds for an `asyncFallible` body, whether the `propagate` call happens
before or after a suspension point. -/
theorem propagate_short_circuits_c1 :
    (∀ v : JSVal, propagate (Result.ok v) = Except.ok v)
    ∧ (∀ (v : JSVal) (rest : JSVal → JSComp (Result JSVal JSVal)),
        fallible (fun p => p (Result.ok v) >>= rest) = fallible (fun _ => rest v))
    ∧ (∀ (e : JSVal) (rest : JSVal → JSComp (Result JSVal JSVal)),
        fallible (fun p => p (Result.error e) >>= rest)
          = Except.ok (Result.error e))
    ∧ (∀ (e : JSVal) (rest : JSVal → AsyncOutcome (Result JSVal JSVal)),
        asyncFallible (fun p => AsyncOutcome.bindSync (p (Result.error e)) rest)
          = Except.ok (Result.error e))
    ∧ (∀ (e : JSVal) (rest : JSVal → AsyncOutcome (Result JSVal JSVal)),
        asyncFallible (fun p => AsyncOutcome.bindAsync (p (Result.error e)) rest)
          = Except.ok (Result.error e)) :=
  ⟨fun _ => rfl, fun _ _ => rfl, fun _ _ => rfl, fun _ _ => rfl, fun _ _ => rfl⟩

/-- Claim C3: `mapError f` is the identity on `ok v`, sends `error e` to
`error (f e)`, and composing two mappers equals mapping the composition. -/
theorem mapError_functor_c3 :
    (∀ (α β γ : Type) (f : β → γ) (v : α),
        mapError f (Result.ok v) = (Result.ok v : Result α γ))
    ∧ (∀ (α β γ : Type) (f : β → γ) (e : β),
        mapError f (Result.error e) = (Result.error (f e) : Result α γ))
    ∧ (∀ (α β γ δ : Type) (f : β → γ) (g : γ → δ) (r : Result α β),
        mapError g (mapError f r) = mapError (g ∘ f) r) := by
  refine ⟨fun _ _ _ _ _ => rfl, fun _ _ _ _ _ => rfl, fun _ _ _ _ f g r => ?_⟩
  cases r <;> rfl

/-- Claim C9: `tapError f` never changes the `Result` value, and its effect
(embedded as explicit state passing) is exactly one invocation of `f` on
the payload when the input is an `error`, and no invocation on an `ok`;
instantiating the state with an invocation counter makes the count
explicit. -/
theorem tapError_transparent_c9 :
    (∀ (α β σ : Type) (f : β → σ → σ) (r : Result α β) (s : σ),
        (tapError f r s).1 = r)
    ∧ (∀ (α β σ : Type) (f : β → σ → σ) (e : β) (s : σ),
        tapError f (Result.error e : Result α β) s = (Result.error e, f e s))
    ∧ (∀ (α β σ : Type) (f : β → σ → σ) (v : α) (s : σ),
        tapError f (Result.ok v : Result α β) s = (Result.ok v, s))
    ∧ (∀ (α β : Type) (r : Result α β),
        (tapError (fun _ n => n + 1) r 0).2
          = (match r with | Result.ok _ => 0 | Result.error _ => 1)) := by
  refine ⟨fun _ _ _ f r s => ?_, fun _ _ _ _ _ _ => rfl,
    fun _ _ _ _ _ _ => rfl, fun _ _ r => ?_⟩
  · cases r <;> rfl
  · cases r <;> rfl

/-- Claim C6: each wrapped form applied to an argument tuple is pointwise
equal to the corresponding immediate catch form run on the thunk
`fun _ => func args`, for all three catch policies and for both the
synchronous and the suspension-aware families. -/
theorem wrap_pointwise_catch_c6 :
    ∀ (σ α : Type) (f : σ → JSComp α) (af : σ → AsyncOutcome α)
      (g : JSVal → Bool) (c : String) (args : σ),
      wrapAnyException f args = catchAnyException (fun _ => f args)
      ∧ wrapGuardedException f g args
          = catchGuardedException (fun _ => f args) g
      ∧ wrapExceptionByType f c args
          = catchExceptionByType (fun _ => f args) c
      ∧ asyncWrapAnyException af args
          = asyncCatchAnyException (fun _ => af args)
      ∧ asyncWrapGuardedException af g args
          = asyncCatchGuardedException (fun _ => af args) g
      ∧ asyncWrapExceptionByType af c args
          = asyncCatchExceptionByType (fun _ => af args) c :=
  fun _ _ _ _ _ _ _ => ⟨rfl, rfl, rfl, rfl, rfl, rfl⟩

/-- Claim C2: the boundary converts a thrown sentinel (the only thing its
own `propagate` ever throws, the `FallibleError` class being unexported)
back into `Failure(e)`, and every thrown value that is not a
`FallibleError` instance escapes the boundary unchanged, never converted
into a `Result`; likewise for the async boundary. -/
theorem boundary_catches_only_sentinel_c2 :
    (∀ e : JSVal,
        fallible (fun _ => Except.error (mkFallibleError e))
          = Except.ok (Result.error e))
    ∧ (∀ e : JSVal,
        asyncFallible (fun _ => AsyncOutcome.rejectAsync (mkFallibleError e))
          = Except.ok (Result.error e))
    ∧ (∀ t : JSVal, instanceOf t fallibleErrorClass = false →
        fallible (fun _ => Except.error t) = Except.error t)
    ∧ (∀ t : JSVal, instanceOf t fallibleErrorClass = false →
        asyncFallible (fun _ => AsyncOutcome.rejectAsync t) = Except.error t) := by
  refine ⟨fun _ => rfl, fun _ => rfl, fun t h => ?_, fun t h => ?_⟩
  · simp [fallible, h]
  · simp [asyncFallible, settle, h]

/-- Witness for C2 at the concrete non-sentinel thrown value `"boom"`. -/
theorem boundary_catches_only_sentinel_c2_w :
    fallible (fun _ => Except.error (JSVal.str "boom"))
      = Except.error (JSVal.str "boom")
    ∧ asyncFallible (fun _ => AsyncOutcome.rejectAsync (JSVal.str "boom"))
      = Except.error (JSVal.str "boom") :=
  ⟨boundary_catches_only_sentinel_c2.2.2.1 (JSVal.str "boom") rfl,
   boundary_catches_only_sentinel_c2.2.2.2 (JSVal.str "boom") rfl⟩

/-- Claim C4: `catchAnyException` and `asyncCatchAnyException` never
rethrow: for every computation the outcome is a returned `Result`.  A
returned value comes back as `ok`, and every thrown value — including
non-error values such as plain numbers or strings, both when thrown
synchronously and when produced as a rejection after a suspension point —
comes back as `error` of that very value. -/
theorem catchAny_never_rethrows_c4 :
    (∀ func : Unit → JSComp JSVal, ∃ r, catchAnyException func = Except.ok r)
    ∧ (∀ v : JSVal,
        catchAnyException (fun _ => Except.ok v) = Except.ok (Result.ok v))
    ∧ (∀ t : JSVal,
        catchAnyException (fun _ => (Except.error t : JSComp JSVal))
          = Except.ok (Result.error t))
    ∧ (∀ func : Unit → AsyncOutcome JSVal,
        ∃ r, asyncCatchAnyException func = Except.ok r)
    ∧ (∀ v : JSVal,
        asyncCatchAnyException (fun _ => AsyncOutcome.resolve v)
          = Except.ok (Result.ok v))
    ∧ (∀ t : JSVal,
        asyncCatchAnyException
            (fun _ => (AsyncOutcome.rejectSync t : AsyncOutcome JSVal))
          = Except.ok (Result.error t))
    ∧ (∀ t : JSVal,
        asyncCatchAnyException
            (fun _ => (AsyncOutcome.rejectAsync t : AsyncOutcome JSVal))
          = Except.ok (Result.error t)) := by
  refine ⟨fun func => ?_, fun _ => rfl, fun _ => rfl, fun func => ?_,
    fun _ => rfl, fun _ => rfl, fun _ => rfl⟩
  · cases h : func () with
    | ok v => exact ⟨Result.ok v, by simp [catchAnyException, h]⟩
    | error t => exact ⟨Result.error t, by simp [catchAnyException, h]⟩
  · cases h : func () with
    | resolve v =>
      exact ⟨Result.ok v, by simp [asyncCatchAnyException, settle, h]⟩
    | rejectSync t =>
      exact ⟨Result.error t, by simp [asyncCatchAnyException, settle, h]⟩
    | rejectAsync t =>
      exact ⟨Result.error t, by simp [asyncCatchAnyException, settle, h]⟩

/-- Claim C5: on a computation that throws `t`, `catchGuardedException`
returns `Failure(t)` exactly when the guard accepts `t`, and
`catchExceptionByType` returns `Failure(t)` exactly when `t` is an
instance of the supplied class; in the non-matching case both rethrow the
original thrown value unchanged (referential identity is modelled as
equality of the embedded value). -/
theorem guarded_catch_iff_c5 :
    ∀ (t : JSVal) (g : JSVal → Bool) (c : String),
      (catchGuardedException (fun _ => (Except.error t : JSComp JSVal)) g
          = Except.ok (Result.error t) ↔ g t = true)
      ∧ (g t = false →
          catchGuardedException (fun _ => (Except.error t : JSComp JSVal)) g
            = Except.error t)
      ∧ (catchExceptionByType (fun _ => (Except.error t : JSComp JSVal)) c
          = Except.ok (Result.error t) ↔ instanceOf t c = true)
      ∧ (instanceOf t c = false →
          catchExceptionByType (fun _ => (Except.error t : JSComp JSVal)) c
            = Except.error t) := by
  intro t g c
  refine ⟨?_, fun h => ?_, ?_, fun h => ?_⟩
  · cases hg : g t <;>
      simp [catchGuardedException, guardOrThrow, hg]
  · simp [catchGuardedException, guardOrThrow, h]
  · cases hi : instanceOf t c <;>
      simp [catchExceptionByType, catchGuardedException, guardOrThrow,
        instanceOfGuard, hi]
  · simp [catchExceptionByType, catchGuardedException, guardOrThrow,
      instanceOfGuard, h]

/-- Witness for C5 at the thrown value `3`, a guard rejecting everything,
and the class name `TypeError` (of which `3` is not an instance). -/
theorem guarded_catch_iff_c5_w :
    catchGuardedException (fun _ => (Except.error (JSVal.int 3) : JSComp JSVal))
        (fun _ => false)
      = Except.error (JSVal.int 3)
    ∧ catchExceptionByType
        (fun _ => (Except.error (JSVal.int 3) : JSComp JSVal)) "TypeError"
      = Except.error (JSVal.int 3) :=
  ⟨(guarded_catch_iff_c5 (JSVal.int 3) (fun _ => false) "TypeError").2.1 rfl,
   (guarded_catch_iff_c5 (JSVal.int 3) (fun _ => false) "TypeError").2.2.2 rfl⟩

/-- Claim C7: nesting is safe.  No sentinel ever escapes a boundary (so a
boundary that did not originate a sentinel never fires on it: everything
of sentinel kind is consumed by the nearest enclosing boundary first), and
a `Failure` propagated inside an inner scope becomes that inner boundary's
result while the outer body continues with the continuation `k` after the
inner call, for every payload `e`. -/
theorem nested_boundaries_safe_c7 :
    (∀ func, escapesNoSentinel (fallible func) = true)
    ∧ (∀ func, escapesNoSentinel (asyncFallible func) = true)
    ∧ (∀ (e : JSVal) (rest : JSVal → JSComp (Result JSVal JSVal))
        (k : Result JSVal JSVal → JSComp (Result JSVal JSVal)),
        fallible (fun _ =>
            (fallible (fun q => q (Result.error e) >>= rest)) >>= k)
          = fallible (fun _ => k (Result.error e))) := by
  refine ⟨fun func => ?_, fun func => ?_, fun _ _ _ => rfl⟩
  · cases hf : func propagate with
    | ok r => simp [fallible, hf, escapesNoSentinel]
    | error t =>
      cases hi : instanceOf t fallibleErrorClass <;>
        simp [fallible, hf, hi, escapesNoSentinel]
  · cases hf : settle (func propagate) with
    | ok r => simp [asyncFallible, hf, escapesNoSentinel]
    | error t =>
      cases hi : instanceOf t fallibleErrorClass <;>
        simp [asyncFallible, hf, hi, escapesNoSentinel]

/-- Claim C8: the suspension-aware catch functions treat a synchronous
throw during the call and a rejection after a suspension point
identically: the same guard decides, a matching value becomes
`Failure(value)`, and a non-matching value makes the returned promise
reject with that very value. -/
theorem async_catch_same_policy_c8 :
    ∀ (t : JSVal) (g : JSVal → Bool) (c : String),
      asyncCatchAnyException
          (fun _ => (AsyncOutcome.rejectSync t : AsyncOutcome JSVal))
        = asyncCatchAnyException
            (fun _ => (AsyncOutcome.rejectAsync t : AsyncOutcome JSVal))
      ∧ asyncCatchAnyException
          (fun _ => (AsyncOutcome.rejectSync t : AsyncOutcome JSVal))
        = Except.ok (Result.error t)
      ∧ asyncCatchGuardedException
          (fun _ => (AsyncOutcome.rejectSync t : AsyncOutcome JSVal)) g
        = asyncCatchGuardedException
            (fun _ => (AsyncOutcome.rejectAsync t : AsyncOutcome JSVal)) g
      ∧ asyncCatchGuardedException
          (fun _ => (AsyncOutcome.rejectSync t : AsyncOutcome JSVal)) g
        = (if g t then Except.ok (Result.error t) else Except.error t)
      ∧ asyncCatchExceptionByType
          (fun _ => (AsyncOutcome.rejectSync t : AsyncOutcome JSVal)) c
        = asyncCatchExceptionByType
            (fun _ => (AsyncOutcome.rejectAsync t : AsyncOutcome JSVal)) c
      ∧ asyncCatchExceptionByType
          (fun _ => (AsyncOutcome.rejectSync t : AsyncOutcome JSVal)) c
        = (if instanceOf t c then Except.ok (Result.error t)
           else Except.error t) := by
  intro t g c
  refine ⟨rfl, rfl, rfl, ?_, rfl, ?_⟩
  · cases hg : g t <;>
      simp [asyncCatchGuardedException, settle, guardOrThrow, hg]
  · cases hi : instanceOf t c <;>
      simp [asyncCatchExceptionByType, asyncCatchGuardedException, settle,
        guardOrThrow, instanceOfGuard, hi]

/-- Claim C10: calling an enclosing boundary's `propagate` on a `Failure`
inside `catchAnyException` (or inside a function wrapped by
`wrapAnyException`) absorbs the sentinel: the result is a `Failure` whose
payload is the sentinel object itself, and the enclosing boundary does not
short-circuit — it continues with the continuation `k` and never sees the
non-local exit. -/
theorem catchAny_absorbs_sentinel_c10 :
    ∀ (e : JSVal) (k : Result JSVal JSVal → JSComp (Result JSVal JSVal)),
      catchAnyException (fun _ => propagate (Result.error e))
        = Except.ok (Result.error (mkFallibleError e))
      ∧ fallible (fun p =>
            catchAnyException (fun _ => p (Result.error e)) >>= k)
          = fallible (fun _ => k (Result.error (mkFallibleError e)))
      ∧ wrapAnyException (fun x => propagate (Result.error x)) e
          = Except.ok (Result.error (mkFallibleError e)) :=
  fun _ _ => ⟨rfl, rfl, rfl⟩

end Fallible
